import Mathlib

/-!
Shallow embedding of the game coordinator application
(`src/game_coordinator/application/coordinator.py`).

The coordinator's mutable state (`self._servers`, `self._tokens`,
`self._newgrf_lookup_table`) is represented by `AppState`; Python `dict`s
become insertion-ordered association lists with the `dict*` operations
below. Every observable action of a handler (packets sent to peers,
transport closes, error logs, flow starts) is recorded as an `Effect`;
each `receive_*` method and each database callback becomes a function
from a state (plus its wire arguments) to a new state and a list of
effects. Randomness (`secrets.token_hex`) and the database ordinal
allocator (`database.get_server_id()`) are modelled as explicit streams
of draws, so the unbounded retry loops become total functions returning
`Option` (`none` when the supplied stream runs out).

The helper modules (`helpers/invite_code.py`, `helpers/server.py`,
`helpers/token_verify.py`, `helpers/token_connect.py`) are not part of
the sources; the few pieces of them the coordinator observes are
modelled from the specification and marked as such in their doc
comments.
-/

namespace GameCoordinator

/-- Python `dict` lookup `d.get(key)` over an insertion-ordered
association list: the value at the first (and, for the coordinator's
tables, only) occurrence of the key. -/
def dictLookup {α β : Type} [DecidableEq α] : List (α × β) → α → Option β
  | [], _ => none
  | (k, w) :: rest, key => if k = key then some w else dictLookup rest key

/-- Python `dict` assignment `d[key] = v`: an existing key keeps its
position and gets the new value; a new key is appended at the end. -/
def dictInsert {α β : Type} [DecidableEq α] : List (α × β) → α → β → List (α × β)
  | [], key, v => [(key, v)]
  | (k, w) :: rest, key, v =>
      if k = key then (key, v) :: rest else (k, w) :: dictInsert rest key v

/-- Python `del d[key]`: removes the entry at the key, if present. -/
def dictRemove {α β : Type} [DecidableEq α] : List (α × β) → α → List (α × β)
  | [], _ => []
  | (k, w) :: rest, key => if k = key then rest else (k, w) :: dictRemove rest key

/-- `ConnectionType` from `openttd_protocol.protocol.coordinator`. -/
inductive ConnectionType
  | unknown
  | direct
  | stun
  | turn
  | isolated
  deriving DecidableEq, Repr

/-- The gameplay-metadata block a server announces via SERVER_UPDATE.
The coordinator reads only `openttd_version` from it and otherwise
treats it opaquely; the remaining keys are kept as an opaque field
list. An absent-or-empty block (`not server.info` in Python) is
represented by `Option.none` at the use site. -/
structure InfoBlock where
  openttd_version : String
  fields : List (String × String)
  deriving DecidableEq, Repr

/-- One entry of the NewGRF lookup table: `{grfid, md5sum, name}`. -/
structure NewGRF where
  grfid : Nat
  md5sum : Nat
  name : String
  deriving DecidableEq, Repr

/-- A locally-managed server. Modelled from the spec: the `Server`
class lives in `helpers/server.py`, absent from the sources. The
coordinator constructs it as
`Server(self, server_id, game_type, source, server_port, invite_code_secret)`;
per the spec a fresh Local server has classification not yet decided
(`connection_type = UNKNOWN`) and no info block. `source` is the peer
session, modelled as an opaque numeric session id. -/
structure ServerLocal where
  server_id : String
  game_type : Nat
  source : Nat
  server_port : Nat
  invite_code_secret : String
  connection_type : ConnectionType
  info : Option InfoBlock
  deriving DecidableEq, Repr

/-- An externally-observed server. Modelled from the spec: the
`ServerExternal` class lives in `helpers/server.py`, absent from the
sources; it carries the classification, the info block, indexed
NewGRFs and the known direct endpoints per address type. -/
structure ServerExternal where
  server_id : String
  connection_type : ConnectionType
  info : Option InfoBlock
  newgrfs : List Nat
  direct_ips : List (Nat × String × Nat)
  deriving DecidableEq, Repr

/-- Modelled from the spec: `ServerExternal(self, server_id)` creates
an External entry with nothing yet known about the server. -/
def ServerExternal.init (server_id : String) : ServerExternal :=
  ⟨server_id, ConnectionType.unknown, none, [], []⟩

/-- Modelled from the spec: `ServerExternal.update(info)` stores the
announced gameplay metadata. -/
def ServerExternal.update (s : ServerExternal) (info : InfoBlock) : ServerExternal :=
  { s with info := some info }

/-- Modelled from the spec: `ServerExternal.update_newgrf(newgrfs_indexed)`
stores the server's NewGRFs by table index. -/
def ServerExternal.update_newgrf (s : ServerExternal) (newgrfs_indexed : List Nat) :
    ServerExternal :=
  { s with newgrfs := newgrfs_indexed }

/-- Modelled from the spec: `ServerExternal.update_direct_ip(type, ip, port)`
records the direct endpoint for the given address type. -/
def ServerExternal.update_direct_ip (s : ServerExternal) (type : Nat) (ip : String)
    (port : Nat) : ServerExternal :=
  { s with direct_ips := dictInsert s.direct_ips type (ip, port) }

/-- A registry entry: either a Local server (peer connected here) or an
External one (observed through the shared database), matching the
`isinstance(..., ServerExternal)` discrimination in the source. -/
inductive ServerEntry
  | localServer (s : ServerLocal)
  | externalServer (s : ServerExternal)
  deriving DecidableEq, Repr

/-- The classification of the entry, read by the listing loop. -/
def ServerEntry.connection_type : ServerEntry → ConnectionType
  | .localServer s => s.connection_type
  | .externalServer s => s.connection_type

/-- The info block of the entry, read by the listing loop. -/
def ServerEntry.info : ServerEntry → Option InfoBlock
  | .localServer s => s.info
  | .externalServer s => s.info

/-- Which kind of token-bound workflow an entry drives. -/
inductive TokenKind
  | verify
  | connect
  deriving DecidableEq, Repr

/-- A token-table entry. Modelled from the spec: `TokenVerify` and
`TokenConnect` live in helper modules absent from the sources; the
coordinator only stores them under their `token` value and reads
`token.token` and `token.client_token` back, so the entry keeps the
constructor arguments the coordinator passes. -/
structure TokenEntry where
  kind : TokenKind
  token : String
  protocol_version : Nat
  server_id : String
  deriving DecidableEq, Repr

/-- Modelled from the spec: the wire form of a token carries a
one-character discriminator, `C` on the client side; the stored key is
the bare value. -/
def TokenEntry.client_token (t : TokenEntry) : String := "C" ++ t.token

/-- `NetworkCoordinatorErrorType` values the coordinator produces. -/
inductive ErrorCode
  | invalidInviteCode
  | noConnection
  deriving DecidableEq, Repr

/-- One observable action of the coordinator: a packet sent to the
requesting peer, a transport close, the start or completion callback of
a token-bound flow, a forwarded instruction to a Local server's peer,
a database stats call, or an internal ERROR-level log line. -/
inductive Effect
  | gcError (protocol_version : Nat) (code : ErrorCode) (detail : String)
  | gcConnecting (protocol_version : Nat) (client_token : String) (invite_code : String)
  | gcListing (protocol_version : Nat) (game_info_version : Nat)
      (servers : List ServerEntry) (table : List (Nat × NewGRF))
  | gcNewgrfLookup (protocol_version : Nat) (cursor : Nat) (table : List (Nat × NewGRF))
  | closeTransport
  | tokenConnect (token : String)
  | tokenConnected (token : String)
  | statsListing (game_info_version : Nat)
  | sendStunRequest (server_id : String) (protocol_version : Nat) (token : String)
  | sendStunConnect (server_id : String) (protocol_version : Nat) (token : String)
      (tracking_number interface_number : Nat) (peer_ip : String) (peer_port : Nat)
  | sendConnectFailed (server_id : String) (protocol_version : Nat) (token : String)
  | logError
  deriving DecidableEq, Repr

/-- The coordinator's mutable state: `self._servers`, `self._tokens`
and `self._newgrf_lookup_table`, all Python dicts in insertion order. -/
structure AppState where
  servers : List (String × ServerEntry)
  tokens : List (String × TokenEntry)
  newgrf_lookup_table : List (Nat × NewGRF)
  deriving DecidableEq, Repr

/-- Modelled from the spec: `generate_invite_code` lives in
`helpers/invite_code.py`, absent from the sources. Per the spec it
renders the database ordinal in a custom base-N scheme behind a `+`;
the exact alphabet is irrelevant to the coordinator logic, so a decimal
rendering stands in (deterministic, injective, `+`-led). -/
def generate_invite_code (ordinal : Nat) : String := "+" ++ toString ordinal

/-- Modelled from the spec: `generate_invite_code_secret` lives in
`helpers/invite_code.py`, absent from the sources. Per the spec it is a
keyed MAC (truncated HMAC-SHA256) of the code under the shared secret;
the hash internals are irrelevant to the coordinator logic, so a
concrete keyed stand-in is used. -/
def generate_invite_code_secret (shared_secret code : String) : String :=
  shared_secret ++ "/" ++ code

/-- Modelled from the spec: `validate_invite_code_secret` compares the
recomputed secret for the presented code against the presented one. -/
def validate_invite_code_secret (shared_secret code secret : String) : Bool :=
  generate_invite_code_secret shared_secret code == secret

/-- The `while True: token = secrets.token_hex(16) ...` loop of both
SERVER_REGISTER and CLIENT_CONNECT handling: draw random values until
one is not already a key of the token table. The randomness source is
an explicit stream of draws; `none` means the stream ran out before a
fresh value appeared. Returns the fresh token and the unconsumed rest
of the stream. -/
def mintToken (draws : List String) (tokens : List (String × TokenEntry)) :
    Option (String × List String) :=
  match draws with
  | [] => none
  | d :: rest => if dictLookup tokens d = none then some (d, rest) else mintToken rest tokens

/-- `n` successive mint-and-bind steps with no intervening deletions:
each step mints a fresh token with `mintToken` and binds an entry built
by `mk` under it, exactly as the two handlers do. -/
def mintMany (mk : String → TokenEntry) :
    Nat → List String → List (String × TokenEntry) → Option (List (String × TokenEntry))
  | 0, _, tokens => some tokens
  | n + 1, draws, tokens =>
      match mintToken draws tokens with
      | none => none
      | some (t, rest) => mintMany mk n rest (dictInsert tokens t (mk t))

/-- The `while True: server_id = generate_invite_code(self.database.get_server_id()) ...`
loop of SERVER_REGISTER handling: each iteration draws the next ordinal
from the database and stops at the first generated code that is unused
in the registry. The ordinal allocator is an explicit stream; `none`
means it ran out before an unused code appeared. -/
def genFreshCode (ords : List Nat) (servers : List (String × ServerEntry)) : Option String :=
  match ords with
  | [] => none
  | o :: rest =>
      if dictLookup servers (generate_invite_code o) = none then some (generate_invite_code o)
      else genFreshCode rest servers

/-- The identity decision of SERVER_REGISTER handling: re-use the
presented invite code iff it and its secret are non-empty, the code
begins with `+` and the secret validates; otherwise generate a fresh
code from the database ordinals and a fresh secret for it. -/
def registerIdentity (shared_secret : String) (servers : List (String × ServerEntry))
    (ords : List Nat) (invite_code invite_code_secret : String) :
    Option (String × String) :=
  if invite_code ≠ "" ∧ invite_code_secret ≠ "" ∧ invite_code.front = '+'
      ∧ validate_invite_code_secret shared_secret invite_code invite_code_secret = true then
    some (invite_code, invite_code_secret)
  else
    match genFreshCode ords servers with
    | none => none
    | some server_id => some (server_id, generate_invite_code_secret shared_secret server_id)

/-- `receive_PACKET_COORDINATOR_SERVER_REGISTER`: decide the server's
identity, install the Local server in the registry, mint a verify
token, bind it, and start the verify flow (`token.connect()`). -/
def receive_PACKET_COORDINATOR_SERVER_REGISTER (shared_secret : String) (st : AppState)
    (ords : List Nat) (draws : List String) (source protocol_version game_type server_port : Nat)
    (invite_code invite_code_secret : String) : Option (AppState × List Effect) :=
  match registerIdentity shared_secret st.servers ords invite_code invite_code_secret with
  | none => none
  | some (server_id, secret) =>
      let srv : ServerLocal :=
        ⟨server_id, game_type, source, server_port, secret, ConnectionType.unknown, none⟩
      let servers := dictInsert st.servers server_id (ServerEntry.localServer srv)
      match mintToken draws st.tokens with
      | none => none
      | some (t, _) =>
          let te : TokenEntry := ⟨TokenKind.verify, t, protocol_version, server_id⟩
          some ({ st with servers := servers, tokens := dictInsert st.tokens t te },
            [Effect.tokenConnect t])

/-- The partition loop of `receive_PACKET_COORDINATOR_CLIENT_LISTING`:
skip ISOLATED servers and servers without an info block; split the rest,
in registry order, into those whose `openttd_version` matches the
client's and the others. -/
def listingSplit (openttd_version : String) :
    List ServerEntry → List ServerEntry × List ServerEntry
  | [] => ([], [])
  | s :: rest =>
      let (servers_match, servers_other) := listingSplit openttd_version rest
      if s.connection_type = ConnectionType.isolated then (servers_match, servers_other)
      else
        match s.info with
        | none => (servers_match, servers_other)
        | some i =>
            if i.openttd_version = openttd_version then (s :: servers_match, servers_other)
            else (servers_match, s :: servers_other)

/-- `receive_PACKET_COORDINATOR_CLIENT_LISTING`: optionally send the
NewGRF lookup table (protocol version 4 and up, table non-empty), then
the listing with version-matching servers first, then report stats. -/
def receive_PACKET_COORDINATOR_CLIENT_LISTING (st : AppState)
    (protocol_version game_info_version : Nat) (openttd_version : String)
    (newgrf_lookup_table_cursor : Nat) : AppState × List Effect :=
  let lookupMsgs :=
    if 4 ≤ protocol_version ∧ st.newgrf_lookup_table ≠ [] then
      [Effect.gcNewgrfLookup protocol_version newgrf_lookup_table_cursor st.newgrf_lookup_table]
    else []
  let (servers_match, servers_other) := listingSplit openttd_version (st.servers.map Prod.snd)
  (st, lookupMsgs ++
    [Effect.gcListing protocol_version game_info_version (servers_match ++ servers_other)
        st.newgrf_lookup_table,
     Effect.statsListing game_info_version])

/-- `receive_PACKET_COORDINATOR_CLIENT_CONNECT`: reject (error + close)
unless the invite code is non-empty, begins with `+` and names a
registered server; otherwise mint a connect token, bind it, tell the
client the client-side token, and start the connect flow. -/
def receive_PACKET_COORDINATOR_CLIENT_CONNECT (st : AppState) (draws : List String)
    (protocol_version : Nat) (invite_code : String) : Option (AppState × List Effect) :=
  if invite_code = "" ∨ invite_code.front ≠ '+'
      ∨ dictLookup st.servers invite_code = none then
    some (st, [Effect.gcError protocol_version ErrorCode.invalidInviteCode invite_code,
      Effect.closeTransport])
  else
    match mintToken draws st.tokens with
    | none => none
    | some (t, _) =>
        let te : TokenEntry := ⟨TokenKind.connect, t, protocol_version, invite_code⟩
        some ({ st with tokens := dictInsert st.tokens t te },
          [Effect.gcConnecting protocol_version te.client_token invite_code,
           Effect.tokenConnect t])

/-- `receive_PACKET_COORDINATOR_CLIENT_CONNECTED`: look the token up
after stripping its one-character discriminator; on a miss close the
transport, otherwise run the flow's completion and delete the token. -/
def receive_PACKET_COORDINATOR_CLIENT_CONNECTED (st : AppState) (protocol_version : Nat)
    (token : String) : AppState × List Effect :=
  match dictLookup st.tokens (token.drop 1) with
  | none => (st, [Effect.closeTransport])
  | some te =>
      ({ st with tokens := dictRemove st.tokens te.token }, [Effect.tokenConnected te.token])

/-- `remove_newgrf_from_table`: scan the table in iteration order and
delete the first entry whose `grfid` and `md5sum` both match. -/
def remove_newgrf_from_table (grfid md5sum : Nat) :
    List (Nat × NewGRF) → List (Nat × NewGRF)
  | [] => []
  | (index, n) :: rest =>
      if n.grfid = grfid ∧ n.md5sum = md5sum then rest
      else (index, n) :: remove_newgrf_from_table grfid md5sum rest

/-- `update_external_server`: create an External entry on a registry
miss, refuse with an error log if the entry is Local, else apply the
info update. -/
def update_external_server (st : AppState) (server_id : String) (info : InfoBlock) :
    AppState × List Effect :=
  let servers :=
    if dictLookup st.servers server_id = none then
      dictInsert st.servers server_id (ServerEntry.externalServer (ServerExternal.init server_id))
    else st.servers
  match dictLookup servers server_id with
  | some (ServerEntry.externalServer e) =>
      ({ st with servers := (dictInsert servers server_id
          (ServerEntry.externalServer (e.update info))) }, [])
  | some (ServerEntry.localServer _) => ({ st with servers := servers }, [Effect.logError])
  | none => ({ st with servers := servers }, [])

/-- `update_newgrf_external_server`: as `update_external_server`, for
the indexed NewGRF list. -/
def update_newgrf_external_server (st : AppState) (server_id : String)
    (newgrfs_indexed : List Nat) : AppState × List Effect :=
  let servers :=
    if dictLookup st.servers server_id = none then
      dictInsert st.servers server_id (ServerEntry.externalServer (ServerExternal.init server_id))
    else st.servers
  match dictLookup servers server_id with
  | some (ServerEntry.externalServer e) =>
      ({ st with servers := (dictInsert servers server_id
          (ServerEntry.externalServer (e.update_newgrf newgrfs_indexed))) }, [])
  | some (ServerEntry.localServer _) => ({ st with servers := servers }, [Effect.logError])
  | none => ({ st with servers := servers }, [])

/-- `update_external_direct_ip`: as `update_external_server`, for a
direct endpoint. -/
def update_external_direct_ip (st : AppState) (server_id : String) (type : Nat)
    (ip : String) (port : Nat) : AppState × List Effect :=
  let servers :=
    if dictLookup st.servers server_id = none then
      dictInsert st.servers server_id (ServerEntry.externalServer (ServerExternal.init server_id))
    else st.servers
  match dictLookup servers server_id with
  | some (ServerEntry.externalServer e) =>
      ({ st with servers := (dictInsert servers server_id
          (ServerEntry.externalServer (e.update_direct_ip type ip port))) }, [])
  | some (ServerEntry.localServer _) => ({ st with servers := servers }, [Effect.logError])
  | none => ({ st with servers := servers }, [])

/-- `send_server_stun_request`: silently return on a registry miss, log
an error for an External entry, else forward to the Local server. -/
def send_server_stun_request (st : AppState) (server_id : String) (protocol_version : Nat)
    (token : String) : AppState × List Effect :=
  match dictLookup st.servers server_id with
  | none => (st, [])
  | some (ServerEntry.externalServer _) => (st, [Effect.logError])
  | some (ServerEntry.localServer _) =>
      (st, [Effect.sendStunRequest server_id protocol_version token])

/-- `send_server_stun_connect`: silently return on a registry miss, log
an error for an External entry, else forward to the Local server. -/
def send_server_stun_connect (st : AppState) (server_id : String) (protocol_version : Nat)
    (token : String) (tracking_number interface_number : Nat) (peer_ip : String)
    (peer_port : Nat) : AppState × List Effect :=
  match dictLookup st.servers server_id with
  | none => (st, [])
  | some (ServerEntry.externalServer _) => (st, [Effect.logError])
  | some (ServerEntry.localServer _) =>
      (st, [Effect.sendStunConnect server_id protocol_version token tracking_number
        interface_number peer_ip peer_port])

/-- `send_server_connect_failed`: silently return on a registry miss,
log an error for an External entry, else forward to the Local server. -/
def send_server_connect_failed (st : AppState) (server_id : String) (protocol_version : Nat)
    (token : String) : AppState × List Effect :=
  match dictLookup st.servers server_id with
  | none => (st, [])
  | some (ServerEntry.externalServer _) => (st, [Effect.logError])
  | some (ServerEntry.localServer _) =>
      (st, [Effect.sendConnectFailed server_id protocol_version token])

/-- Spec-side predicate: the server appears in listings (reachable,
i.e. not ISOLATED, and its info block is present). -/
def isListed (s : ServerEntry) : Bool :=
  !(s.connection_type == ConnectionType.isolated) && s.info.isSome

/-- Spec-side predicate: listed and announcing exactly the client's
`openttd_version`. -/
def listedVersionEq (openttd_version : String) (s : ServerEntry) : Bool :=
  isListed s &&
    (match s.info with
     | some i => i.openttd_version == openttd_version
     | none => false)

theorem dictLookup_eq_none {α β : Type} [DecidableEq α] {l : List (α × β)} {k : α} :
    dictLookup l k = none ↔ k ∉ l.map Prod.fst := by
  induction l with
  | nil => simp [dictLookup]
  | cons p rest ih =>
      obtain ⟨a, w⟩ := p
      simp only [dictLookup, List.map_cons, List.mem_cons]
      by_cases hk : a = k
      · subst hk
        simp
      · rw [if_neg hk, ih]
        constructor
        · intro hni hor
          rcases hor with h1 | h2
          · exact hk h1.symm
          · exact hni h2
        · intro hno hm
          exact hno (Or.inr hm)

theorem dictInsert_eq_append {α β : Type} [DecidableEq α] {l : List (α × β)} {k : α} {v : β}
    (h : dictLookup l k = none) : dictInsert l k v = l ++ [(k, v)] := by
  induction l with
  | nil => rfl
  | cons p rest ih =>
      obtain ⟨a, w⟩ := p
      simp only [dictLookup] at h
      by_cases hk : a = k
      · simp [hk] at h
      · rw [if_neg hk] at h
        simp [dictInsert, hk, ih h]

theorem dictLookup_dictInsert_self {α β : Type} [DecidableEq α] (l : List (α × β)) (k : α)
    (v : β) : dictLookup (dictInsert l k v) k = some v := by
  induction l with
  | nil => simp [dictInsert, dictLookup]
  | cons p rest ih =>
      obtain ⟨a, w⟩ := p
      by_cases hk : a = k
      · simp [dictInsert, dictLookup, hk]
      · simp [dictInsert, dictLookup, hk, ih]

theorem dictInsert_dictInsert_self {α β : Type} [DecidableEq α] (l : List (α × β)) (k : α)
    (v w : β) : dictInsert (dictInsert l k v) k w = dictInsert l k w := by
  induction l with
  | nil => simp [dictInsert]
  | cons p rest ih =>
      obtain ⟨a, u⟩ := p
      by_cases hk : a = k
      · simp [dictInsert, hk]
      · simp [dictInsert, hk, ih]

theorem dictLookup_append_fresh {α β : Type} [DecidableEq α] {l : List (α × β)} {k : α}
    {v : β} (h : dictLookup l k = none) : dictLookup (l ++ [(k, v)]) k = some v := by
  induction l with
  | nil => simp [dictLookup]
  | cons p rest ih =>
      obtain ⟨a, w⟩ := p
      simp only [dictLookup] at h
      by_cases hk : a = k
      · simp [hk] at h
      · rw [if_neg hk] at h
        simp only [List.cons_append, dictLookup, if_neg hk]
        exact ih h

theorem dictInsert_append_fresh {α β : Type} [DecidableEq α] {l : List (α × β)} {k : α}
    {v w : β} (h : dictLookup l k = none) : dictInsert (l ++ [(k, v)]) k w = l ++ [(k, w)] := by
  induction l with
  | nil => simp [dictInsert]
  | cons p rest ih =>
      obtain ⟨a, u⟩ := p
      simp only [dictLookup] at h
      by_cases hk : a = k
      · simp [hk] at h
      · rw [if_neg hk] at h
        simp only [List.cons_append, dictInsert, if_neg hk]
        exact congrArg _ (ih h)

theorem mintToken_lookup_none {draws : List String} {tokens : List (String × TokenEntry)}
    {t : String} {rest : List String} (h : mintToken draws tokens = some (t, rest)) :
    dictLookup tokens t = none := by
  induction draws with
  | nil => cases h
  | cons d ds ih =>
      simp only [mintToken] at h
      by_cases hd : dictLookup tokens d = none
      · rw [if_pos hd] at h
        injection h with h'
        injection h' with h1 h2
        subst h1
        exact hd
      · rw [if_neg hd] at h
        exact ih h

theorem mintMany_spec (mk : String → TokenEntry) :
    ∀ (n : Nat) (draws : List String) (tokens tbl : List (String × TokenEntry)),
      mintMany mk n draws tokens = some tbl → (tokens.map Prod.fst).Nodup →
      tbl.length = tokens.length + n ∧ (tbl.map Prod.fst).Nodup := by
  intro n
  induction n with
  | zero =>
      intro draws tokens tbl h hn
      simp only [mintMany] at h
      injection h with h'
      subst h'
      exact ⟨rfl, hn⟩
  | succ n ih =>
      intro draws tokens tbl h hn
      simp only [mintMany] at h
      cases hmt : mintToken draws tokens with
      | none => rw [hmt] at h; cases h
      | some q =>
          obtain ⟨t, rest⟩ := q
          rw [hmt] at h
          have hfresh : dictLookup tokens t = none := mintToken_lookup_none hmt
          have happ := dictInsert_eq_append (v := mk t) hfresh
          have hnodup : ((dictInsert tokens t (mk t)).map Prod.fst).Nodup := by
            rw [happ]
            simp only [List.map_append, List.map_cons, List.map_nil]
            rw [List.nodup_append]
            refine ⟨hn, List.nodup_singleton t, ?_⟩
            intro a ha hb
            simp only [List.mem_singleton] at hb
            subst hb
            exact (dictLookup_eq_none.mp hfresh) ha
          obtain ⟨h1, h2⟩ := ih rest (dictInsert tokens t (mk t)) tbl h hnodup
          refine ⟨?_, h2⟩
          rw [h1, happ]
          simp only [List.length_append, List.length_singleton]
          omega

theorem genFreshCode_spec (servers : List (String × ServerEntry)) :
    ∀ (ords : List Nat) (sid : String), genFreshCode ords servers = some sid →
      dictLookup servers sid = none ∧
      ∃ pre o rest, ords = pre ++ o :: rest ∧ sid = generate_invite_code o ∧
        ∀ o' ∈ pre, dictLookup servers (generate_invite_code o') ≠ none := by
  intro ords
  induction ords with
  | nil => intro sid h; cases h
  | cons o rest ih =>
      intro sid h
      simp only [genFreshCode] at h
      by_cases hc : dictLookup servers (generate_invite_code o) = none
      · rw [if_pos hc] at h
        injection h with h'
        subst h'
        exact ⟨hc, [], o, rest, rfl, rfl, by simp⟩
      · rw [if_neg hc] at h
        obtain ⟨hn, pre, o', rest', heq, hsid, hpre⟩ := ih sid h
        refine ⟨hn, o :: pre, o', rest', by rw [heq]; rfl, hsid, ?_⟩
        intro x hx
        rcases List.mem_cons.mp hx with h1 | h2
        · subst h1; exact hc
        · exact hpre x h2

theorem registerIdentity_inv {shared_secret : String} {servers : List (String × ServerEntry)}
    {ords : List Nat} {invite_code invite_code_secret sid secret : String}
    (h : registerIdentity shared_secret servers ords invite_code invite_code_secret
      = some (sid, secret)) :
    ((invite_code ≠ "" ∧ invite_code_secret ≠ "" ∧ invite_code.front = '+'
        ∧ validate_invite_code_secret shared_secret invite_code invite_code_secret = true)
      ∧ sid = invite_code ∧ secret = invite_code_secret) ∨
    (¬(invite_code ≠ "" ∧ invite_code_secret ≠ "" ∧ invite_code.front = '+'
        ∧ validate_invite_code_secret shared_secret invite_code invite_code_secret = true)
      ∧ secret = generate_invite_code_secret shared_secret sid
      ∧ genFreshCode ords servers = some sid) := by
  simp only [registerIdentity] at h
  by_cases hc : invite_code ≠ "" ∧ invite_code_secret ≠ "" ∧ invite_code.front = '+'
      ∧ validate_invite_code_secret shared_secret invite_code invite_code_secret = true
  · rw [if_pos hc] at h
    injection h with h'
    injection h' with h1 h2
    exact Or.inl ⟨hc, h1.symm, h2.symm⟩
  · rw [if_neg hc] at h
    cases hg : genFreshCode ords servers with
    | none => rw [hg] at h; cases h
    | some s =>
        rw [hg] at h
        injection h with h'
        injection h' with h1 h2
        subst h1
        exact Or.inr ⟨hc, h2.symm, rfl⟩

theorem server_register_inv {shared_secret : String} {st : AppState} {ords : List Nat}
    {draws : List String} {source protocol_version game_type server_port : Nat}
    {invite_code invite_code_secret : String} {st' : AppState} {effs : List Effect}
    (h : receive_PACKET_COORDINATOR_SERVER_REGISTER shared_secret st ords draws source
      protocol_version game_type server_port invite_code invite_code_secret
      = some (st', effs)) :
    ∃ sid secret t,
      registerIdentity shared_secret st.servers ords invite_code invite_code_secret
        = some (sid, secret) ∧
      (∃ rest, mintToken draws st.tokens = some (t, rest)) ∧
      st' = { st with
        servers := dictInsert st.servers sid (ServerEntry.localServer
          ⟨sid, game_type, source, server_port, secret, ConnectionType.unknown, none⟩),
        tokens := dictInsert st.tokens t ⟨TokenKind.verify, t, protocol_version, sid⟩ } ∧
      effs = [Effect.tokenConnect t] := by
  simp only [receive_PACKET_COORDINATOR_SERVER_REGISTER] at h
  cases hri : registerIdentity shared_secret st.servers ords invite_code invite_code_secret with
  | none => rw [hri] at h; cases h
  | some p =>
      obtain ⟨sid, secret⟩ := p
      rw [hri] at h
      cases hmt : mintToken draws st.tokens with
      | none => rw [hmt] at h; cases h
      | some q =>
          obtain ⟨t, rest⟩ := q
          rw [hmt] at h
          injection h with h'
          injection h' with h1 h2
          exact ⟨sid, secret, t, rfl, ⟨rest, rfl⟩, h1.symm, h2.symm⟩

theorem listingSplit_eq_filter (openttd_version : String) (l : List ServerEntry) :
    listingSplit openttd_version l =
      (l.filter (listedVersionEq openttd_version),
       l.filter fun s => isListed s && !(listedVersionEq openttd_version s)) := by
  induction l with
  | nil => simp [listingSplit]
  | cons s rest ih =>
      simp only [listingSplit, ih, List.filter_cons]
      by_cases h1 : s.connection_type = ConnectionType.isolated
      · simp [isListed, listedVersionEq, h1]
      · cases hinfo : s.info with
        | none => simp [isListed, listedVersionEq, h1, hinfo]
        | some i =>
            by_cases h2 : i.openttd_version = openttd_version
            · simp [isListed, listedVersionEq, h1, hinfo, h2]
            · simp [isListed, listedVersionEq, h1, hinfo, h2]

/-- C1, counterexample to the claim as stated: with the registry holding an
External entry under `+1` and a SERVER_REGISTER presenting the valid pair
`(+1, s/+1)`, the handler does not refuse: it installs the Local server over
the External entry (the result registry maps `+1` to a Local entry and the
only effect is the start of the verify flow, with no error log). -/
theorem server_register_overwrites_external_cex :
    receive_PACKET_COORDINATOR_SERVER_REGISTER "s"
        ⟨[("+1", ServerEntry.externalServer (ServerExternal.init "+1"))], [], []⟩
        [7] ["t0"] 1 4 0 3979 "+1" "s/+1"
      = some
        (⟨[("+1", ServerEntry.localServer
              ⟨"+1", 0, 1, 3979, "s/+1", ConnectionType.unknown, none⟩)],
          [("t0", ⟨TokenKind.verify, "t0", 4, "+1"⟩)], []⟩,
         [Effect.tokenConnect "t0"]) := by
  decide

/-- C1 (amended): every successful SERVER_REGISTER installs the new Local
server in the registry under the resulting server id, unconditionally
replacing whatever entry (External included) held that id; an existing entry
can only be hit when the id was re-used from the presented invite code, since
freshly generated ids are drawn until unused. -/
theorem server_register_installs_local (shared_secret : String) (st : AppState)
    (ords : List Nat) (draws : List String)
    (source protocol_version game_type server_port : Nat)
    (invite_code invite_code_secret : String) (st' : AppState) (effs : List Effect)
    (h : receive_PACKET_COORDINATOR_SERVER_REGISTER shared_secret st ords draws source
      protocol_version game_type server_port invite_code invite_code_secret
      = some (st', effs)) :
    ∃ sid secret,
      st'.servers = dictInsert st.servers sid (ServerEntry.localServer
        ⟨sid, game_type, source, server_port, secret, ConnectionType.unknown, none⟩) ∧
      (dictLookup st.servers sid ≠ none → sid = invite_code) := by
  obtain ⟨sid, secret, t, hri, _, hst, _⟩ := server_register_inv h
  refine ⟨sid, secret, by rw [hst], ?_⟩
  intro hne
  rcases registerIdentity_inv hri with ⟨_, hsid, _⟩ | ⟨_, _, hgen⟩
  · exact hsid
  · exact absurd (genFreshCode_spec _ _ _ hgen).1 hne

/-- Witness for C1 at a concrete fresh registration. -/
theorem server_register_installs_local_witness :
    ∃ sid secret,
      (⟨[("+7", ServerEntry.localServer
            ⟨"+7", 0, 1, 3979, "s/+7", ConnectionType.unknown, none⟩)],
         [("t0", ⟨TokenKind.verify, "t0", 4, "+7"⟩)], []⟩ : AppState).servers
        = dictInsert ([] : List (String × ServerEntry)) sid (ServerEntry.localServer
            ⟨sid, 0, 1, 3979, secret, ConnectionType.unknown, none⟩) ∧
      (dictLookup ([] : List (String × ServerEntry)) sid ≠ none → sid = "") :=
  server_register_installs_local "s" ⟨[], [], []⟩ [7] ["t0"] 1 4 0 3979 "" ""
    ⟨[("+7", ServerEntry.localServer
        ⟨"+7", 0, 1, 3979, "s/+7", ConnectionType.unknown, none⟩)],
      [("t0", ⟨TokenKind.verify, "t0", 4, "+7"⟩)], []⟩
    [Effect.tokenConnect "t0"] (by decide)

/-- C2, counterexample to the claim as stated: a CLIENT_CONNECTED whose
stripped token `deadbeef` is not in the (empty) token table leaves the state
unchanged but closes the peer transport, so the handling is observable. -/
theorem client_connected_unknown_closes_cex :
    receive_PACKET_COORDINATOR_CLIENT_CONNECTED ⟨[], [], []⟩ 4 "Cdeadbeef"
      = (⟨[], [], []⟩, [Effect.closeTransport]) := by
  decide

/-- C2 (amended): for every CLIENT_CONNECTED whose stripped token is absent
from the token table, no error packet is sent and the state (token table and
registry) is unchanged, but the peer transport IS closed. -/
theorem client_connected_unknown_token (st : AppState) (protocol_version : Nat)
    (token : String) (h : dictLookup st.tokens (token.drop 1) = none) :
    receive_PACKET_COORDINATOR_CLIENT_CONNECTED st protocol_version token
      = (st, [Effect.closeTransport]) := by
  simp only [receive_PACKET_COORDINATOR_CLIENT_CONNECTED, h]

/-- Witness for C2 with an unrelated token in the table. -/
theorem client_connected_unknown_token_witness :
    receive_PACKET_COORDINATOR_CLIENT_CONNECTED
        ⟨[], [("zz", ⟨TokenKind.connect, "zz", 4, "+1"⟩)], []⟩ 4 "Cabc"
      = (⟨[], [("zz", ⟨TokenKind.connect, "zz", 4, "+1"⟩)], []⟩,
         [Effect.closeTransport]) :=
  client_connected_unknown_token
    ⟨[], [("zz", ⟨TokenKind.connect, "zz", 4, "+1"⟩)], []⟩ 4 "Cabc" (by decide)

/-- C3, counterexample to the claim as stated: the presented invite code `x`
and secret `s/x` are both non-empty and the secret validates, yet because the
code does not begin with `+` the handler takes the fresh-generation branch
and registers `+7`, not `x`. -/
theorem server_register_nonplus_code_cex :
    validate_invite_code_secret "s" "x" "s/x" = true ∧
    receive_PACKET_COORDINATOR_SERVER_REGISTER "s" ⟨[], [], []⟩ [7] ["t0"] 1 4 0 3979 "x" "s/x"
      = some
        (⟨[("+7", ServerEntry.localServer
              ⟨"+7", 0, 1, 3979, "s/+7", ConnectionType.unknown, none⟩)],
          [("t0", ⟨TokenKind.verify, "t0", 4, "+7"⟩)], []⟩,
         [Effect.tokenConnect "t0"]) ∧
    dictLookup [("+7", ServerEntry.localServer
        ⟨"+7", 0, 1, 3979, "s/+7", ConnectionType.unknown, none⟩)] "x" = none := by
  refine ⟨by decide, by decide, by decide⟩

/-- C3 (amended): on every successful SERVER_REGISTER, if the presented
invite code and secret are non-empty, the code begins with `+` and the secret
validates, the registered server id is the presented code and the presented
secret is kept; otherwise the id is generated from the database ordinals —
the first generated code unused in the registry, every earlier ordinal
generating a used one — and the secret is freshly computed for it. -/
theorem server_register_identity_decision (shared_secret : String) (st : AppState)
    (ords : List Nat) (draws : List String)
    (source protocol_version game_type server_port : Nat)
    (invite_code invite_code_secret : String) (st' : AppState) (effs : List Effect)
    (h : receive_PACKET_COORDINATOR_SERVER_REGISTER shared_secret st ords draws source
      protocol_version game_type server_port invite_code invite_code_secret
      = some (st', effs)) :
    ∃ sid secret,
      st'.servers = dictInsert st.servers sid (ServerEntry.localServer
        ⟨sid, game_type, source, server_port, secret, ConnectionType.unknown, none⟩) ∧
      (if invite_code ≠ "" ∧ invite_code_secret ≠ "" ∧ invite_code.front = '+'
          ∧ validate_invite_code_secret shared_secret invite_code invite_code_secret = true
       then sid = invite_code ∧ secret = invite_code_secret
       else secret = generate_invite_code_secret shared_secret sid ∧
         dictLookup st.servers sid = none ∧
         ∃ pre o rest, ords = pre ++ o :: rest ∧ sid = generate_invite_code o ∧
           ∀ o' ∈ pre, dictLookup st.servers (generate_invite_code o') ≠ none) := by
  obtain ⟨sid, secret, t, hri, _, hst, _⟩ := server_register_inv h
  refine ⟨sid, secret, by rw [hst], ?_⟩
  rcases registerIdentity_inv hri with ⟨hc, hsid, hsecret⟩ | ⟨hc, hsecret, hgen⟩
  · rw [if_pos hc]
    exact ⟨hsid, hsecret⟩
  · rw [if_neg hc]
    obtain ⟨hnone, hfirst⟩ := genFreshCode_spec st.servers ords sid hgen
    exact ⟨hsecret, hnone, hfirst⟩

/-- Witness for C3 at a concrete valid re-registration. -/
theorem server_register_identity_decision_witness :
    ∃ sid secret,
      (⟨[("+1", ServerEntry.localServer
            ⟨"+1", 0, 1, 3979, "s/+1", ConnectionType.unknown, none⟩)],
         [("t0", ⟨TokenKind.verify, "t0", 4, "+1"⟩)], []⟩ : AppState).servers
        = dictInsert ([] : List (String × ServerEntry)) sid (ServerEntry.localServer
            ⟨sid, 0, 1, 3979, secret, ConnectionType.unknown, none⟩) ∧
      (if ("+1" : String) ≠ "" ∧ ("s/+1" : String) ≠ "" ∧ ("+1" : String).front = '+'
          ∧ validate_invite_code_secret "s" "+1" "s/+1" = true
       then sid = "+1" ∧ secret = "s/+1"
       else secret = generate_invite_code_secret "s" sid ∧
         dictLookup ([] : List (String × ServerEntry)) sid = none ∧
         ∃ pre o rest, ([] : List Nat) = pre ++ o :: rest ∧ sid = generate_invite_code o ∧
           ∀ o' ∈ pre,
             dictLookup ([] : List (String × ServerEntry)) (generate_invite_code o') ≠ none) :=
  server_register_identity_decision "s" ⟨[], [], []⟩ [] ["t0"] 1 4 0 3979 "+1" "s/+1"
    ⟨[("+1", ServerEntry.localServer
        ⟨"+1", 0, 1, 3979, "s/+1", ConnectionType.unknown, none⟩)],
      [("t0", ⟨TokenKind.verify, "t0", 4, "+1"⟩)], []⟩
    [Effect.tokenConnect "t0"] (by decide)

/-- C4: the CLIENT_LISTING response carries exactly the registry servers that
are reachable (`connection_type` not ISOLATED) and have an info block, with
every version-matching server before every other server and each of the two
groups in registry insertion order — i.e. the sent list is the matching
filter followed by the non-matching filter of the registry values. -/
theorem client_listing_ordering (st : AppState) (protocol_version game_info_version : Nat)
    (openttd_version : String) (cursor : Nat) :
    (receive_PACKET_COORDINATOR_CLIENT_LISTING st protocol_version game_info_version
        openttd_version cursor).2 =
      (if 4 ≤ protocol_version ∧ st.newgrf_lookup_table ≠ [] then
        [Effect.gcNewgrfLookup protocol_version cursor st.newgrf_lookup_table]
      else []) ++
      [Effect.gcListing protocol_version game_info_version
        ((st.servers.map Prod.snd).filter (listedVersionEq openttd_version) ++
         (st.servers.map Prod.snd).filter
           fun s => isListed s && !(listedVersionEq openttd_version s))
        st.newgrf_lookup_table,
       Effect.statsListing game_info_version] := by
  simp only [receive_PACKET_COORDINATOR_CLIENT_LISTING, listingSplit_eq_filter]

/-- C5: a CLIENT_CONNECT whose invite code is not in the registry is answered
with GC_ERROR(INVALID_INVITE_CODE) carrying the presented code, the session
is closed, and the state (registry and token table) is unchanged. -/
theorem client_connect_unknown_code (st : AppState) (draws : List String)
    (protocol_version : Nat) (invite_code : String)
    (h : dictLookup st.servers invite_code = none) :
    receive_PACKET_COORDINATOR_CLIENT_CONNECT st draws protocol_version invite_code
      = some (st, [Effect.gcError protocol_version ErrorCode.invalidInviteCode invite_code,
          Effect.closeTransport]) := by
  simp only [receive_PACKET_COORDINATOR_CLIENT_CONNECT]
  rw [if_pos (Or.inr (Or.inr h))]

/-- Witness for C5 at a concrete unknown code. -/
theorem client_connect_unknown_code_witness :
    receive_PACKET_COORDINATOR_CLIENT_CONNECT ⟨[], [], []⟩ ["t0"] 4 "+9"
      = some (⟨[], [], []⟩,
          [Effect.gcError 4 ErrorCode.invalidInviteCode "+9", Effect.closeTransport]) :=
  client_connect_unknown_code ⟨[], [], []⟩ ["t0"] 4 "+9" (by decide)

/-- C6: minting draws until a fresh value, so N mint-and-bind steps starting
from an empty token table and with no intervening deletions leave the table
with exactly N entries under pairwise distinct token keys. -/
theorem token_mint_uniqueness (mk : String → TokenEntry) (n : Nat) (draws : List String)
    (tbl : List (String × TokenEntry)) (h : mintMany mk n draws [] = some tbl) :
    tbl.length = n ∧ (tbl.map Prod.fst).Nodup := by
  have hs := mintMany_spec mk n draws [] tbl h (by simp)
  simpa using hs

/-- Witness for C6: three mints over the draw stream a, b, a, c (the second
a collides and is skipped). -/
theorem token_mint_uniqueness_witness :
    ([("a", (⟨TokenKind.verify, "a", 4, "+1"⟩ : TokenEntry)),
      ("b", ⟨TokenKind.verify, "b", 4, "+1"⟩),
      ("c", ⟨TokenKind.verify, "c", 4, "+1"⟩)] :
        List (String × TokenEntry)).length = 3 ∧
    (([("a", (⟨TokenKind.verify, "a", 4, "+1"⟩ : TokenEntry)),
       ("b", ⟨TokenKind.verify, "b", 4, "+1"⟩),
       ("c", ⟨TokenKind.verify, "c", 4, "+1"⟩)] :
        List (String × TokenEntry)).map Prod.fst).Nodup :=
  token_mint_uniqueness (fun t => ⟨TokenKind.verify, t, 4, "+1"⟩) 3 ["a", "b", "a", "c"]
    [("a", ⟨TokenKind.verify, "a", 4, "+1"⟩),
     ("b", ⟨TokenKind.verify, "b", 4, "+1"⟩),
     ("c", ⟨TokenKind.verify, "c", 4, "+1"⟩)] (by decide)

/-- C7, counterexample to the claim as stated: at protocol version 4 with an
empty NewGRF lookup table, no GC_NEWGRF_LOOKUP message precedes GC_LISTING. -/
theorem client_listing_newgrf_cex :
    (receive_PACKET_COORDINATOR_CLIENT_LISTING ⟨[], [], []⟩ 4 1 "v" 0).2
      = [Effect.gcListing 4 1 [] [], Effect.statsListing 1] ∧
    ∀ (p c : Nat) (tab : List (Nat × NewGRF)),
      Effect.gcNewgrfLookup p c tab ∉
        [Effect.gcListing 4 1 [] [], Effect.statsListing 1] := by
  constructor
  · decide
  · intro p c tab hmem
    simp at hmem

/-- C7 (amended): when the protocol version is at least 4 AND the NewGRF
lookup table is non-empty, the GC_LISTING response is preceded by exactly one
GC_NEWGRF_LOOKUP carrying the cursor and the table; otherwise (lower version
or empty table) no GC_NEWGRF_LOOKUP is sent at all. -/
theorem client_listing_newgrf_lookup (st : AppState)
    (protocol_version game_info_version : Nat) (openttd_version : String) (cursor : Nat) :
    (4 ≤ protocol_version ∧ st.newgrf_lookup_table ≠ [] →
      ∃ servers, (receive_PACKET_COORDINATOR_CLIENT_LISTING st protocol_version
          game_info_version openttd_version cursor).2 =
        [Effect.gcNewgrfLookup protocol_version cursor st.newgrf_lookup_table,
         Effect.gcListing protocol_version game_info_version servers st.newgrf_lookup_table,
         Effect.statsListing game_info_version]) ∧
    (¬(4 ≤ protocol_version ∧ st.newgrf_lookup_table ≠ []) →
      ∀ (p c : Nat) (tab : List (Nat × NewGRF)),
        Effect.gcNewgrfLookup p c tab ∉
          (receive_PACKET_COORDINATOR_CLIENT_LISTING st protocol_version
            game_info_version openttd_version cursor).2) := by
  constructor
  · intro hc
    refine ⟨(st.servers.map Prod.snd).filter (listedVersionEq openttd_version) ++
      (st.servers.map Prod.snd).filter
        (fun s => isListed s && !(listedVersionEq openttd_version s)), ?_⟩
    simp only [receive_PACKET_COORDINATOR_CLIENT_LISTING, listingSplit_eq_filter, if_pos hc]
    rfl
  · intro hnc p c tab hmem
    simp only [receive_PACKET_COORDINATOR_CLIENT_LISTING, listingSplit_eq_filter,
      if_neg hnc] at hmem
    simp at hmem

/-- Witness for C7 with a one-entry table at protocol version 4. -/
theorem client_listing_newgrf_lookup_witness :
    ∃ servers,
      (receive_PACKET_COORDINATOR_CLIENT_LISTING ⟨[], [], [(0, ⟨1, 2, "g"⟩)]⟩ 4 1 "v" 0).2 =
        [Effect.gcNewgrfLookup 4 0 [(0, ⟨1, 2, "g"⟩)],
         Effect.gcListing 4 1 servers [(0, ⟨1, 2, "g"⟩)],
         Effect.statsListing 1] :=
  (client_listing_newgrf_lookup ⟨[], [], [(0, ⟨1, 2, "g"⟩)]⟩ 4 1 "v" 0).1 (by decide)

/-- C8: removing a NewGRF deletes exactly the first entry, in table iteration
order, whose grfid and md5sum both match, leaving every other entry (later
duplicates included) untouched, and is the identity when nothing matches. -/
theorem remove_newgrf_first_match (grfid md5sum : Nat) :
    (∀ t : List (Nat × NewGRF), (∀ e ∈ t, ¬(e.2.grfid = grfid ∧ e.2.md5sum = md5sum)) →
      remove_newgrf_from_table grfid md5sum t = t) ∧
    (∀ (pre post : List (Nat × NewGRF)) (i : Nat) (n : NewGRF),
      n.grfid = grfid → n.md5sum = md5sum →
      (∀ e ∈ pre, ¬(e.2.grfid = grfid ∧ e.2.md5sum = md5sum)) →
      remove_newgrf_from_table grfid md5sum (pre ++ (i, n) :: post) = pre ++ post) := by
  constructor
  · intro t
    induction t with
    | nil => intro _; rfl
    | cons e rest ih =>
        intro hall
        obtain ⟨i, n⟩ := e
        simp only [remove_newgrf_from_table]
        rw [if_neg (hall (i, n) (List.mem_cons_self _ _))]
        rw [ih fun x hx => hall x (List.mem_cons_of_mem _ hx)]
  · intro pre
    induction pre with
    | nil =>
        intro post i n hg hm _
        simp only [List.nil_append, remove_newgrf_from_table]
        rw [if_pos ⟨hg, hm⟩]
    | cons e pre' ih =>
        intro post i n hg hm hall
        obtain ⟨j, m⟩ := e
        simp only [List.cons_append, remove_newgrf_from_table]
        rw [if_neg (hall (j, m) (List.mem_cons_self _ _))]
        exact congrArg _ (ih post i n hg hm fun x hx => hall x (List.mem_cons_of_mem _ hx))

/-- Witness for C8: the entry (1, b) is the first grfid/md5sum match and is
the only one removed; the later duplicate (2, c) stays. -/
theorem remove_newgrf_first_match_witness :
    remove_newgrf_from_table 1 2
        ([(0, ⟨3, 4, "a"⟩)] ++ (1, (⟨1, 2, "b"⟩ : NewGRF)) :: [(2, ⟨1, 2, "c"⟩)])
      = [(0, ⟨3, 4, "a"⟩)] ++ [(2, ⟨1, 2, "c"⟩)] :=
  (remove_newgrf_first_match 1 2).2 [(0, ⟨3, 4, "a"⟩)] [(2, ⟨1, 2, "c"⟩)] 1 ⟨1, 2, "b"⟩
    rfl rfl (by decide)

/-- C9: a CLIENT_CONNECT whose invite code is empty or does not begin with
`+` is rejected with GC_ERROR(INVALID_INVITE_CODE) and a session close,
whatever the registry holds — in particular even when an (External) entry
exists under exactly that id, so such entries are unreachable by connects. -/
theorem client_connect_rejects_without_plus (st : AppState) (draws : List String)
    (protocol_version : Nat) (invite_code : String)
    (h : invite_code = "" ∨ invite_code.front ≠ '+') :
    receive_PACKET_COORDINATOR_CLIENT_CONNECT st draws protocol_version invite_code
      = some (st, [Effect.gcError protocol_version ErrorCode.invalidInviteCode invite_code,
          Effect.closeTransport]) := by
  simp only [receive_PACKET_COORDINATOR_CLIENT_CONNECT]
  rcases h with h | h
  · rw [if_pos (Or.inl h)]
  · rw [if_pos (Or.inr (Or.inl h))]

/-- Witness for C9: the registry holds an External entry under `srv` (no `+`
as External ids are stored without such a check), yet connecting to `srv` is
rejected and the entry stays unreachable. -/
theorem client_connect_rejects_without_plus_witness :
    dictLookup (⟨[("srv", ServerEntry.externalServer (ServerExternal.init "srv"))],
        [], []⟩ : AppState).servers "srv" ≠ none ∧
    receive_PACKET_COORDINATOR_CLIENT_CONNECT
        ⟨[("srv", ServerEntry.externalServer (ServerExternal.init "srv"))], [], []⟩ [] 4 "srv"
      = some (⟨[("srv", ServerEntry.externalServer (ServerExternal.init "srv"))], [], []⟩,
          [Effect.gcError 4 ErrorCode.invalidInviteCode "srv", Effect.closeTransport]) :=
  ⟨by decide,
   client_connect_rejects_without_plus
     ⟨[("srv", ServerEntry.externalServer (ServerExternal.init "srv"))], [], []⟩ [] 4 "srv"
     (Or.inr (by decide))⟩

/-- C10: on a server id absent from the registry, the three send forwards
return silently with no effect and no state change, while the three external
update callbacks create a fresh External entry (appended at the end of the
registry) and apply their update to it. -/
theorem missing_server_id_behaviour (st : AppState) (server_id : String)
    (protocol_version : Nat) (token : String) (tracking_number interface_number : Nat)
    (peer_ip : String) (peer_port : Nat) (info : InfoBlock) (newgrfs_indexed : List Nat)
    (type : Nat) (ip : String) (port : Nat)
    (h : dictLookup st.servers server_id = none) :
    send_server_stun_request st server_id protocol_version token = (st, []) ∧
    send_server_stun_connect st server_id protocol_version token tracking_number
      interface_number peer_ip peer_port = (st, []) ∧
    send_server_connect_failed st server_id protocol_version token = (st, []) ∧
    update_external_server st server_id info =
      ({ st with servers := st.servers ++ [(server_id, ServerEntry.externalServer
          ((ServerExternal.init server_id).update info))] }, []) ∧
    update_newgrf_external_server st server_id newgrfs_indexed =
      ({ st with servers := st.servers ++ [(server_id, ServerEntry.externalServer
          ((ServerExternal.init server_id).update_newgrf newgrfs_indexed))] }, []) ∧
    update_external_direct_ip st server_id type ip port =
      ({ st with servers := st.servers ++ [(server_id, ServerEntry.externalServer
          ((ServerExternal.init server_id).update_direct_ip type ip port))] }, []) := by
  refine ⟨?_, ?_, ?_, ?_, ?_, ?_⟩
  · simp only [send_server_stun_request, h]
  · simp only [send_server_stun_connect, h]
  · simp only [send_server_connect_failed, h]
  · simp only [update_external_server, h, if_pos, dictInsert_eq_append h,
      dictLookup_append_fresh h, dictInsert_append_fresh h]
  · simp only [update_newgrf_external_server, h, if_pos, dictInsert_eq_append h,
      dictLookup_append_fresh h, dictInsert_append_fresh h]
  · simp only [update_external_direct_ip, h, if_pos, dictInsert_eq_append h,
      dictLookup_append_fresh h, dictInsert_append_fresh h]

/-- Witness for C10 on an empty registry. -/
theorem missing_server_id_behaviour_witness :
    send_server_stun_request ⟨[], [], []⟩ "s1" 4 "tok" = (⟨[], [], []⟩, []) ∧
    send_server_stun_connect ⟨[], [], []⟩ "s1" 4 "tok" 1 2 "ip" 80 = (⟨[], [], []⟩, []) ∧
    send_server_connect_failed ⟨[], [], []⟩ "s1" 4 "tok" = (⟨[], [], []⟩, []) ∧
    update_external_server ⟨[], [], []⟩ "s1" ⟨"v", []⟩ =
      (⟨[("s1", ServerEntry.externalServer ((ServerExternal.init "s1").update ⟨"v", []⟩))],
        [], []⟩, []) ∧
    update_newgrf_external_server ⟨[], [], []⟩ "s1" [5] =
      (⟨[("s1", ServerEntry.externalServer ((ServerExternal.init "s1").update_newgrf [5]))],
        [], []⟩, []) ∧
    update_external_direct_ip ⟨[], [], []⟩ "s1" 6 "dip" 81 =
      (⟨[("s1", ServerEntry.externalServer
          ((ServerExternal.init "s1").update_direct_ip 6 "dip" 81))], [], []⟩, []) :=
  missing_server_id_behaviour ⟨[], [], []⟩ "s1" 4 "tok" 1 2 "ip" 80 ⟨"v", []⟩ [5] 6 "dip" 81
    (by decide)

end GameCoordinator
